import Mathlib

/-!
Shallow embedding of the NUJJUM backend (src/main.py, src/schemas.py):
request validation (pydantic models), the document-store adapter, and the
FastAPI endpoint handlers. JSON payloads are modelled by `Value`, documents
by association lists, and the store by a collection-indexed map. The
`database` module itself is not part of the sources, so its two operations
are modelled from the spec where noted.
-/

/-- A JSON value, as carried in request bodies and stored documents. -/
inductive Value where
  | null : Value
  | bool : Bool → Value
  | str : String → Value
  | int : Int → Value
  | arr : List Value → Value
  | obj : List (String × Value) → Value
deriving Repr

/-- A document: a Python dict with string keys, as persisted to the store. -/
abbrev Doc : Type := List (String × Value)

/-- The document store: collections indexed by name, each a list of
(assigned id, document) pairs, plus a counter generating fresh ids. -/
structure Store where
  collections : String → List (String × Doc)
  nextId : Nat

/-- The empty store. -/
def store0 : Store := { collections := fun _ => [], nextId := 0 }

/-- Modelled from the spec: `create(collectionName, document) -> id` of the
absent `database` module persists the document into the named collection and
returns a newly generated unique identifier as a string. -/
def create_document (coll : String) (data : Doc) (s : Store) : String × Store :=
  (toString s.nextId,
   { collections := fun c =>
       if c = coll then s.collections c ++ [(toString s.nextId, data)]
       else s.collections c,
     nextId := s.nextId + 1 })

/-- Exact comparison of values, used by `matchesFilter`. -/
def Value.beq : Value → Value → Bool
  | .null, .null => true
  | .bool a, .bool b => a == b
  | .str a, .str b => a == b
  | .int a, .int b => a == b
  | .arr a, .arr b => go a b
  | .obj a, .obj b => goObj a b
  | _, _ => false
where
  go : List Value → List Value → Bool
    | [], [] => true
    | x :: xs, y :: ys => x.beq y && go xs ys
    | _, _ => false
  goObj : List (String × Value) → List (String × Value) → Bool
    | [], [] => true
    | (k, x) :: xs, (l, y) :: ys => k == l && x.beq y && goObj xs ys
    | _, _ => false

instance : BEq Value := ⟨Value.beq⟩

/-- Whether a document matches a Mongo-style equality filter (the code only
ever passes the empty filter, which matches everything). -/
def matchesFilter (filt : Doc) (d : Doc) : Bool :=
  filt.all fun kv => List.lookup kv.1 d == some kv.2

/-- Modelled from the spec: `list(collectionName, filter, limit)` of the
absent `database` module returns up to `limit` documents matching the
filter, each carrying its store-assigned id under the internal key "_id". -/
def get_documents (coll : String) (filt : Doc) (limit : Int) (s : Store) : List Doc :=
  ((((s.collections coll).filter fun p => matchesFilter filt p.2).map
    fun p => (("_id", Value.str p.1) :: p.2 : Doc)).take limit.toNat)

/-- Python `str(...)` on a stored value (stored ids are strings). -/
def pyStr : Value → String
  | .str s => s
  | .int n => toString n
  | .bool b => if b then "True" else "False"
  | .null => "None"
  | .arr _ => ""
  | .obj _ => ""

/-- Python `d[k] = v` on a dict: any existing binding of `k` is replaced. -/
def setKey (k : String) (v : Value) (d : Doc) : Doc :=
  (d.filter fun p => p.1 != k) ++ [(k, v)]

/-- The sanitizing loop body of `list_profiles`:
`if "_id" in d: d["id"] = str(d.pop("_id"))`. -/
def sanitizeDoc (d : Doc) : Doc :=
  match List.lookup "_id" d with
  | some v => setKey "id" (Value.str (pyStr v)) (d.filter fun p => p.1 != "_id")
  | none => d

/-- FastAPI `HTTPException` as raised by the handlers (and the 422 produced
by request-validation failure). -/
structure HTTPException where
  status_code : Nat
  detail : String
deriving Repr, DecidableEq

/- ---------------- pydantic models and their validation ---------------- -/

/-- `DisabilityProfile` (src/main.py lines 19-24). -/
structure DisabilityProfile where
  disability_type : List String
  preferred_mode : String
  language : String
  high_contrast : Bool
  large_text : Bool
deriving Repr, DecidableEq

/-- `UserProfile` (src/main.py lines 27-34). -/
structure UserProfile where
  name : Option String
  email : Option String
  phone : Option String
  country : Option String
  city : Option String
  profile : DisabilityProfile
  documents_submitted : List String
deriving Repr, DecidableEq

/-- `ProfileCreateRequest` (src/main.py lines 37-38). -/
structure ProfileCreateRequest where
  user : UserProfile
deriving Repr, DecidableEq

/-- `ProfileCreateResponse` (src/main.py lines 41-43). -/
structure ProfileCreateResponse where
  id : String
  message : String
deriving Repr, DecidableEq

/-- `SOSRequest` (src/main.py lines 46-50): note there is no `status` field. -/
structure SOSRequest where
  user_id : Option String
  location : Option String
  notes : Option String
  emergency_type : String
deriving Repr, DecidableEq

/-- `SOSResponse` (src/main.py lines 53-56). -/
structure SOSResponse where
  id : String
  status : String
  message : String
deriving Repr, DecidableEq

/-- Validation of an `Optional[str] = None` field: absent or null gives
`none`; a string is accepted; anything else is a type error. -/
def parseOptStr (fields : List (String × Value)) (k : String) :
    Except String (Option String) :=
  match List.lookup k fields with
  | none => .ok none
  | some .null => .ok none
  | some (.str s) => .ok (some s)
  | some _ => .error (k ++ ": Input should be a valid string")

/-- Validation of a `Literal[...] = default` field: absent gives the
default; a string must be one of the allowed literals. -/
def parseLiteral (fields : List (String × Value)) (k : String)
    (allowed : List String) (default : String) : Except String String :=
  match List.lookup k fields with
  | none => .ok default
  | some (.str s) =>
      if s ∈ allowed then .ok s
      else .error (k ++ ": Input should be one of the permitted literals")
  | some _ => .error (k ++ ": Input should be one of the permitted literals")

/-- Validation of one element of a `List[Literal[...]]` field. -/
def parseLiteralElem (k : String) (allowed : List String) (v : Value) :
    Except String String :=
  match v with
  | .str s =>
      if s ∈ allowed then .ok s
      else .error (k ++ ": Input should be one of the permitted literals")
  | _ => .error (k ++ ": Input should be one of the permitted literals")

/-- Validation of a required `List[Literal[...]]` field (pydantic `Field(...)`
makes the field required but places no lower bound on the list's length). -/
def parseLiteralList (fields : List (String × Value)) (k : String)
    (allowed : List String) : Except String (List String) :=
  match List.lookup k fields with
  | none => .error (k ++ ": Field required")
  | some (.arr xs) => xs.mapM (parseLiteralElem k allowed)
  | some _ => .error (k ++ ": Input should be a valid list")

/-- Validation of a `List[str] = []` field. -/
def parseStrList (fields : List (String × Value)) (k : String) :
    Except String (List String) :=
  match List.lookup k fields with
  | none => .ok []
  | some (.arr xs) =>
      xs.mapM fun v =>
        match v with
        | .str s => Except.ok s
        | _ => Except.error (k ++ ": Input should be a valid string")
  | some _ => .error (k ++ ": Input should be a valid list")

/-- Validation of a `bool = default` field. -/
def parseBool (fields : List (String × Value)) (k : String) (default : Bool) :
    Except String Bool :=
  match List.lookup k fields with
  | none => .ok default
  | some (.bool b) => .ok b
  | some _ => .error (k ++ ": Input should be a valid boolean")

/-- The fixed literal set of `disability_type`. -/
def DISABILITY_TYPES : List String :=
  ["visual", "hearing", "mobility", "cognitive", "multiple"]

/-- The fixed literal set of `preferred_mode`. -/
def PREFERRED_MODES : List String := ["voice", "text", "simplified", "auto"]

/-- The fixed literal set of `language`. -/
def LANGUAGES : List String := ["en", "ar"]

/-- The fixed literal set of `emergency_type`. -/
def EMERGENCY_TYPES : List String := ["medical", "safety", "mobility_support", "other"]

/-- pydantic validation of `DisabilityProfile`; unknown fields are ignored
(pydantic's default `extra` policy). -/
def DisabilityProfile.validate (v : Value) : Except String DisabilityProfile :=
  match v with
  | .obj fields => do
      let dts ← parseLiteralList fields "disability_type" DISABILITY_TYPES
      let pm ← parseLiteral fields "preferred_mode" PREFERRED_MODES "auto"
      let lg ← parseLiteral fields "language" LANGUAGES "en"
      let hc ← parseBool fields "high_contrast" false
      let lt ← parseBool fields "large_text" false
      .ok ⟨dts, pm, lg, hc, lt⟩
  | _ => .error "profile: Input should be a valid dictionary"

/-- pydantic validation of `UserProfile`. -/
def UserProfile.validate (v : Value) : Except String UserProfile :=
  match v with
  | .obj fields => do
      let nm ← parseOptStr fields "name"
      let em ← parseOptStr fields "email"
      let ph ← parseOptStr fields "phone"
      let co ← parseOptStr fields "country"
      let ci ← parseOptStr fields "city"
      let pr ←
        match List.lookup "profile" fields with
        | none => Except.error "profile: Field required"
        | some pv => DisabilityProfile.validate pv
      let ds ← parseStrList fields "documents_submitted"
      .ok ⟨nm, em, ph, co, ci, pr, ds⟩
  | _ => .error "user: Input should be a valid dictionary"

/-- pydantic validation of `ProfileCreateRequest` (the POST /api/profile body). -/
def ProfileCreateRequest.validate (v : Value) : Except String ProfileCreateRequest :=
  match v with
  | .obj fields =>
      match List.lookup "user" fields with
      | none => .error "user: Field required"
      | some uv => (UserProfile.validate uv).map ProfileCreateRequest.mk
  | _ => .error "body: Input should be a valid dictionary"

/-- pydantic validation of `SOSRequest` (the POST /api/sos body); a
client-supplied `status` key, or any other unknown key, is ignored. -/
def SOSRequest.validate (v : Value) : Except String SOSRequest :=
  match v with
  | .obj fields => do
      let ui ← parseOptStr fields "user_id"
      let lo ← parseOptStr fields "location"
      let no ← parseOptStr fields "notes"
      let et ← parseLiteral fields "emergency_type" EMERGENCY_TYPES "medical"
      .ok ⟨ui, lo, no, et⟩
  | _ => .error "body: Input should be a valid dictionary"

/-- `Optional[str]` rendered back into a stored value by `model_dump`. -/
def optVal : Option String → Value
  | none => .null
  | some s => .str s

/-- `DisabilityProfile.model_dump()`. -/
def DisabilityProfile.model_dump (p : DisabilityProfile) : List (String × Value) :=
  [("disability_type", Value.arr (p.disability_type.map Value.str)),
   ("preferred_mode", Value.str p.preferred_mode),
   ("language", Value.str p.language),
   ("high_contrast", Value.bool p.high_contrast),
   ("large_text", Value.bool p.large_text)]

/-- `UserProfile.model_dump()` (nested models dump to nested dicts). -/
def UserProfile.model_dump (u : UserProfile) : Doc :=
  [("name", optVal u.name),
   ("email", optVal u.email),
   ("phone", optVal u.phone),
   ("country", optVal u.country),
   ("city", optVal u.city),
   ("profile", Value.obj u.profile.model_dump),
   ("documents_submitted", Value.arr (u.documents_submitted.map Value.str))]

/-- `SOSRequest.model_dump()`. -/
def SOSRequest.model_dump (r : SOSRequest) : Doc :=
  [("user_id", optVal r.user_id),
   ("location", optVal r.location),
   ("notes", optVal r.notes),
   ("emergency_type", Value.str r.emergency_type)]

/-- The document `create_sos` persists: `model_dump()` plus
`data["status"] = "open"` (src/main.py lines 216-217). -/
def sosStoredDoc (r : SOSRequest) : Doc :=
  r.model_dump ++ [("status", Value.str "open")]

/- ---------------- endpoint handlers ---------------- -/

/-- The `create_profile` handler body (src/main.py lines 159-165), after
FastAPI has validated the body. The `fail` argument models the exception an
underlying storage call may raise inside the `try` block: `some msg` means
the storage layer raised with message `msg`, which the handler turns into
`HTTPException(status_code=500, detail=str(e))`. -/
def create_profile (payload : ProfileCreateRequest) (s : Store)
    (fail : Option String) : Except HTTPException ProfileCreateResponse × Store :=
  match fail with
  | some msg => (.error ⟨500, msg⟩, s)
  | none =>
      let r := create_document "poduser" payload.user.model_dump s
      (.ok ⟨r.1, "Profile created"⟩, r.2)

/-- The POST /api/profile endpoint: FastAPI validates the JSON body against
`ProfileCreateRequest` before the handler runs; a validation failure is a
422 response and the handler (hence the store) is never reached. -/
def post_profile (body : Value) (s : Store) (fail : Option String) :
    Except HTTPException ProfileCreateResponse × Store :=
  match ProfileCreateRequest.validate body with
  | .error msg => (.error ⟨422, msg⟩, s)
  | .ok payload => create_profile payload s fail

/-- The `create_sos` handler body (src/main.py lines 214-221): dumps the
validated request, overwrites `status` with "open", persists to "sos", and
answers with the fixed message; a storage exception becomes a 500 whose
detail is `str(e)`. -/
def create_sos (req : SOSRequest) (s : Store) (fail : Option String) :
    Except HTTPException SOSResponse × Store :=
  match fail with
  | some msg => (.error ⟨500, msg⟩, s)
  | none =>
      let r := create_document "sos" (sosStoredDoc req) s
      (.ok ⟨r.1, "open", "SOS logged. Coordinators notified."⟩, r.2)

/-- The POST /api/sos endpoint: validation first, then the handler. -/
def post_sos (body : Value) (s : Store) (fail : Option String) :
    Except HTTPException SOSResponse × Store :=
  match SOSRequest.validate body with
  | .error msg => (.error ⟨422, msg⟩, s)
  | .ok req => create_sos req s fail

/-- The `list_profiles` handler (src/main.py lines 169-178): fetches up to
`limit` documents from "poduser", replaces each document's internal "_id"
with a public string field "id", and returns them (the HTTP layer wraps the
returned list as `{"items": ...}`); a storage exception becomes a 500. -/
def list_profiles (limit : Int) (s : Store) (fail : Option String) :
    Except HTTPException (List Doc) :=
  match fail with
  | some msg => .error ⟨500, msg⟩
  | none => .ok ((get_documents "poduser" [] limit s).map sanitizeDoc)

/- ---------------- localization ---------------- -/

/-- The hardcoded `TRANSLATIONS` table (src/main.py lines 107-148). -/
def TRANSLATIONS : List (String × List (String × String)) :=
  [("en",
    [("title", "NUJJUM — Accessibility & Empowerment"),
     ("subtitle", "Adaptive hub for health, benefits, community and emergency support"),
     ("get_started", "Get Started"),
     ("save", "Save"),
     ("sos", "Emergency SOS"),
     ("healthcare", "Healthcare"),
     ("benefits", "Government Benefits"),
     ("community", "Community"),
     ("devices", "Assistive Devices"),
     ("education", "Education & Employment"),
     ("global", "Global Requests"),
     ("voice_mode", "Voice Mode"),
     ("text_mode", "Text Mode"),
     ("simplified_mode", "Simplified Mode"),
     ("high_contrast", "High Contrast"),
     ("large_text", "Large Text"),
     ("language", "Language"),
     ("profile_saved", "Profile saved successfully")]),
   ("ar",
    [("title", "نُجُّوم — منصة الوصول والتمكين"),
     ("subtitle", "واجهة تكيفية للصحة والمزايا والمجتمع والدعم الطارئ"),
     ("get_started", "ابدأ"),
     ("save", "حفظ"),
     ("sos", "نداء طارئ"),
     ("healthcare", "الرعاية الصحية"),
     ("benefits", "المزايا الحكومية"),
     ("community", "المجتمع"),
     ("devices", "الأجهزة المساعدة"),
     ("education", "التعليم والعمل"),
     ("global", "الطلبات العالمية"),
     ("voice_mode", "وضع الصوت"),
     ("text_mode", "وضع النص"),
     ("simplified_mode", "وضع مبسط"),
     ("high_contrast", "تباين عالٍ"),
     ("large_text", "نص كبير"),
     ("language", "اللغة"),
     ("profile_saved", "تم حفظ الملف الشخصي بنجاح")])]

/-- Whether the first character list begins with the second. -/
def listStartsWith : List Char → List Char → Bool
  | _, [] => true
  | [], _ :: _ => false
  | c :: cs, d :: ds => c == d && listStartsWith cs ds

/-- Python `str.lower()`, character-wise. -/
def pyLower (s : String) : String := ⟨s.data.map Char.toLower⟩

/-- Python `str.startswith(p)`. -/
def pyStartsWith (s p : String) : Bool := listStartsWith s.data p.data

/-- Python slicing `s[:n]`: the first `n` characters. -/
def pySlice (n : Nat) (s : String) : String := ⟨s.data.take n⟩

/-- The GET /api/i18n/(lang) handler (src/main.py lines 152-154):
`lang = "ar" if lang.lower().startswith("ar") else "en"`, then the table
lookup (always found, since the normalized key is "en" or "ar"). -/
def get_translations (lang : String) : List (String × String) :=
  let l := if pyStartsWith (pyLower lang) "ar" then "ar" else "en"
  (List.lookup l TRANSLATIONS).getD []

/-- The key column of a string-keyed table. -/
def keysOf {α : Type} (t : List (String × α)) : List String := t.map Prod.fst

/- ---------------- services catalog ---------------- -/

/-- One catalog item as built by `get_services`. -/
def svcItem (nm ds : String) : Value :=
  .obj [("name", .str nm), ("description", .str ds)]

/-- One catalog category as built by `get_services`. -/
def svcCategory (key nm : String) (items : List Value) : Value :=
  .obj [("key", .str key), ("name", .str nm), ("items", .arr items)]

/-- The GET /api/services handler (src/main.py lines 183-209): a fixed,
in-process structure rebuilt on every call from literals; it takes no input
and reads no mutable state, which the `Unit` argument makes explicit. -/
def get_services (_u : Unit) : Value :=
  .obj [("categories", .arr
    [svcCategory "healthcare" "Healthcare"
      [svcItem "Telemedicine" "Virtual consults with accessibility options",
       svcItem "Rehabilitation" "Physio, speech, occupational therapy"],
     svcCategory "benefits" "Government Benefits"
      [svcItem "POD ID Verification" "Submit documents to unlock programs",
       svcItem "Subsidies" "Travel, devices, healthcare subsidies"],
     svcCategory "community" "Community"
      [svcItem "Local Groups" "Meetups and support circles",
       svcItem "Volunteers" "Request helpers and guides"],
     svcCategory "devices" "Assistive Devices"
      [svcItem "Marketplace" "Screen readers, hearing aids, mobility aids"],
     svcCategory "education" "Education & Employment"
      [svcItem "Accessible Courses" "Learning paths with captions and TTS",
       svcItem "Inclusive Jobs" "Listings with accommodations"],
     svcCategory "global" "Global Requests"
      [svcItem "Cross-border Support" "Travel and relocation assistance"]])]

/- ---------------- diagnostic endpoint ---------------- -/

/-- The possible states of the database connection object, as probed by the
GET /test endpoint: its `name` attribute (`getattr` with a default models a
possibly missing attribute) and the outcome of `list_collection_names()`. -/
structure DbConn where
  nameAttr : Option String
  listCollectionNames : Except String (List String)

/-- The outcome of `from database import db` inside the handler's `try`:
the import may fail with `ImportError`, the block may raise some other
exception, or it yields a module whose `db` is `None` or a connection. -/
inductive DbImport where
  | importErr : DbImport
  | otherErr : String → DbImport
  | found : Option DbConn → DbImport

/-- The process environment read by `os.getenv` at lines 101-102. -/
structure OsEnv where
  databaseUrl : Option String
  databaseName : Option String

/-- The mapping returned by GET /test. The two fields that start out as
Python `None` are `Option String`. -/
structure TestResponse where
  backend : String
  database : String
  database_url : Option String
  database_name : Option String
  connection_status : String
  collections : List String
deriving Repr, DecidableEq

/-- The GET /test handler (src/main.py lines 70-103), as a total function of
the import outcome and the environment: every failure mode ends up as a
string in the `database` field, and lines 101-102 unconditionally overwrite
`database_url` and `database_name` at the end. -/
def test_database (imp : DbImport) (env : OsEnv) : TestResponse :=
  let r : TestResponse :=
    { backend := "✅ Running", database := "❌ Not Available",
      database_url := none, database_name := none,
      connection_status := "Not Connected", collections := [] }
  let r :=
    match imp with
    | .importErr =>
        { r with database := "❌ Database module not found (run enable-database first)" }
    | .otherErr e => { r with database := "❌ Error: " ++ pySlice 50 e }
    | .found none => { r with database := "⚠️  Available but not initialized" }
    | .found (some db) =>
        let r := { r with database := "✅ Available",
                          database_url := some "✅ Configured",
                          database_name := some (db.nameAttr.getD "✅ Connected"),
                          connection_status := "Connected" }
        match db.listCollectionNames with
        | .ok cols =>
            { r with collections := cols.take 10,
                     database := "✅ Connected & Working" }
        | .error e => { r with database := "⚠️  Connected but Error: " ++ pySlice 50 e }
  { r with
    database_url := some (if env.databaseUrl.isSome then "✅ Set" else "❌ Not Set"),
    database_name := some (if env.databaseName.isSome then "✅ Set" else "❌ Not Set") }

/- ---------------- concrete payloads used in witnesses ---------------- -/

/-- A POST /api/sos body that also smuggles in a client-supplied
`status: "closed"` and an unknown key. -/
def sosBody1 : Value :=
  .obj [("emergency_type", .str "medical"), ("location", .str "Dubai"),
        ("status", .str "closed"), ("favorite_color", .str "teal")]

/-- What `sosBody1` validates to: the `status` and `favorite_color` keys are
dropped because `SOSRequest` declares no such fields. -/
def sosReq1 : SOSRequest := ⟨none, some "Dubai", none, "medical"⟩

/-- A POST /api/profile body whose `disability_type` is the empty list. -/
def profileBodyEmptyDis : Value :=
  .obj [("user", .obj [("name", .str "Aya"),
                       ("profile", .obj [("disability_type", .arr [])])])]

/-- What `profileBodyEmptyDis` validates to. -/
def profileReqEmptyDis : ProfileCreateRequest :=
  ⟨⟨some "Aya", none, none, none, none, ⟨[], "auto", "en", false, false⟩, []⟩⟩

/-- A POST /api/sos body with an `emergency_type` outside the literal set. -/
def sosBodyBad : Value := .obj [("emergency_type", .str "volcano")]

/-- A POST /api/profile body whose profile is missing the required
`disability_type` field. -/
def profileBodyBad : Value :=
  .obj [("user", .obj [("profile", .obj [])])]

/-- A storage-failure message longer than 50 characters (the only
truncation width appearing anywhere in the code, at `/test`). -/
def longErrMsg : String :=
  "database connection failed: timed out waiting for a server to respond"

/-- A store holding one profile document, as left by a successful
POST /api/profile. -/
def storeWithProfile : Store := (post_profile profileBodyEmptyDis store0 none).2

/-- The sanitized form of the one document in `storeWithProfile` as
returned by GET /api/profile. -/
def sanitizedProfileDoc : Doc :=
  profileReqEmptyDis.user.model_dump ++ [("id", Value.str "0")]

/- ---------------- helper lemmas on association lists ---------------- -/

theorem lookup_append_right (k : String) (l₁ l₂ : List (String × Value))
    (h : ∀ p ∈ l₁, (k == p.1) = false) :
    List.lookup k (l₁ ++ l₂) = List.lookup k l₂ := by
  induction l₁ with
  | nil => rfl
  | cons p t ih =>
      have hp := h p (List.mem_cons_self p t)
      have ht : ∀ q ∈ t, (k == q.1) = false :=
        fun q hq => h q (List.mem_cons_of_mem p hq)
      simpa [List.lookup, hp] using ih ht

theorem sanitizeDoc_lookup (i : String) (rest : Doc) :
    List.lookup "id" (sanitizeDoc (("_id", Value.str i) :: rest)) =
      some (Value.str i) ∧
    List.lookup "_id" (sanitizeDoc (("_id", Value.str i) :: rest)) = none := by
  have hform : sanitizeDoc (("_id", Value.str i) :: rest) =
      ((("_id", Value.str i) :: rest).filter (fun p => p.1 != "_id")).filter
        (fun p => p.1 != "id") ++ [("id", Value.str i)] := rfl
  constructor
  · rw [hform, lookup_append_right]
    · rfl
    · intro p hp
      have := (List.mem_filter.mp hp).2
      have hne : ¬(p.1 = "id") := by simpa using this
      simp [hne, Ne.symm hne]
  · rw [hform, lookup_append_right]
    · rfl
    · intro p hp
      have hmem := (List.mem_filter.mp hp).1
      have := (List.mem_filter.mp hmem).2
      have hne : ¬(p.1 = "_id") := by simpa using this
      simp [hne, Ne.symm hne]

/- ---------------- claim theorems ---------------- -/

/-- C1: every accepted POST /api/sos request, whatever `status` the client
supplied in the body, persists to the "sos" collection a document whose
`status` is "open" and answers with the new id, status "open" and the fixed
message "SOS logged. Coordinators notified.". -/
theorem create_sos_always_open (body : Value) (s : Store) (req : SOSRequest)
    (h : SOSRequest.validate body = Except.ok req) :
    (post_sos body s none).1 =
      Except.ok ⟨toString s.nextId, "open", "SOS logged. Coordinators notified."⟩ ∧
    (post_sos body s none).2.collections "sos" =
      s.collections "sos" ++ [(toString s.nextId, sosStoredDoc req)] ∧
    List.lookup "status" (sosStoredDoc req) = some (Value.str "open") := by
  refine ⟨?_, ?_, ?_⟩
  · simp [post_sos, h, create_sos, create_document]
  · simp [post_sos, h, create_sos, create_document]
  · rfl

/-- C1 witness: the property at a concrete body that even carries
`status: "closed"`, starting from the empty store. -/
theorem create_sos_always_open_witness :
    (post_sos sosBody1 store0 none).1 =
      Except.ok ⟨"0", "open", "SOS logged. Coordinators notified."⟩ ∧
    (post_sos sosBody1 store0 none).2.collections "sos" =
      store0.collections "sos" ++ [("0", sosStoredDoc sosReq1)] ∧
    List.lookup "status" (sosStoredDoc sosReq1) = some (Value.str "open") :=
  create_sos_always_open sosBody1 store0 sosReq1 rfl

/-- C2 counterexample: a POST /api/profile body whose disability_type is the
empty list is accepted — the response is a 200 with an id, and a document is
persisted to "poduser" — contradicting the claim that it is rejected with a
validation error and nothing stored. -/
theorem empty_disability_rejected_cex :
    (post_profile profileBodyEmptyDis store0 none).1 =
      Except.ok ⟨"0", "Profile created"⟩ ∧
    ((post_profile profileBodyEmptyDis store0 none).2.collections "poduser").length = 1 :=
  ⟨rfl, rfl⟩

/-- C2 (amended): pydantic's `Field(...)` makes disability_type required but
places no lower bound on the list's length, so a body whose
disability_type is `[]` passes validation and the document — with an empty
disability_type list inside its embedded profile — is persisted. -/
theorem empty_disability_accepted (body : Value) (s : Store)
    (req : ProfileCreateRequest)
    (h : ProfileCreateRequest.validate body = Except.ok req)
    (hd : req.user.profile.disability_type = []) :
    (post_profile body s none).1 =
      Except.ok ⟨toString s.nextId, "Profile created"⟩ ∧
    (post_profile body s none).2.collections "poduser" =
      s.collections "poduser" ++ [(toString s.nextId, req.user.model_dump)] ∧
    List.lookup "profile" req.user.model_dump =
      some (Value.obj req.user.profile.model_dump) ∧
    List.lookup "disability_type" req.user.profile.model_dump =
      some (Value.arr []) := by
  refine ⟨?_, ?_, ?_, ?_⟩
  · simp [post_profile, h, create_profile, create_document]
  · simp [post_profile, h, create_profile, create_document]
  · rfl
  · have hbase : List.lookup "disability_type" req.user.profile.model_dump =
        some (Value.arr (req.user.profile.disability_type.map Value.str)) := rfl
    rw [hbase, hd]
    rfl

/-- C2 witness: the amended property at the concrete empty-list body. -/
theorem empty_disability_accepted_witness :
    (post_profile profileBodyEmptyDis store0 none).1 =
      Except.ok ⟨"0", "Profile created"⟩ ∧
    (post_profile profileBodyEmptyDis store0 none).2.collections "poduser" =
      store0.collections "poduser" ++ [("0", profileReqEmptyDis.user.model_dump)] ∧
    List.lookup "profile" profileReqEmptyDis.user.model_dump =
      some (Value.obj profileReqEmptyDis.user.profile.model_dump) ∧
    List.lookup "disability_type" profileReqEmptyDis.user.profile.model_dump =
      some (Value.arr []) :=
  empty_disability_accepted profileBodyEmptyDis store0 profileReqEmptyDis rfl rfl

/-- C3 counterexample: a storage failure in create_sos is answered with a
500 whose detail is the full underlying message — at a 69-character message
the detail is not equal to its 50-character truncation (the only truncation
width the code uses anywhere), so the detail is not truncated. -/
theorem storage_error_truncated_cex :
    (post_sos sosBody1 store0 (some longErrMsg)).1 =
      Except.error ⟨500, longErrMsg⟩ ∧
    pySlice 50 longErrMsg ≠ longErrMsg :=
  ⟨rfl, by decide⟩

/-- C3 (amended): every storage failure raised during create_profile or
create_sos is caught at the handler boundary and translated into an HTTP
500 whose detail carries the underlying error message in full (`str(e)`,
untruncated), the store being left unchanged. -/
theorem storage_error_translated (bodyS bodyP : Value) (s : Store)
    (reqS : SOSRequest) (reqP : ProfileCreateRequest) (msg : String)
    (hs : SOSRequest.validate bodyS = Except.ok reqS)
    (hp : ProfileCreateRequest.validate bodyP = Except.ok reqP) :
    post_sos bodyS s (some msg) = (Except.error ⟨500, msg⟩, s) ∧
    post_profile bodyP s (some msg) = (Except.error ⟨500, msg⟩, s) := by
  constructor
  · simp [post_sos, hs, create_sos]
  · simp [post_profile, hp, create_profile]

/-- C3 witness: the amended property at concrete bodies and the long
failure message. -/
theorem storage_error_translated_witness :
    post_sos sosBody1 store0 (some longErrMsg) =
      (Except.error ⟨500, longErrMsg⟩, store0) ∧
    post_profile profileBodyEmptyDis store0 (some longErrMsg) =
      (Except.error ⟨500, longErrMsg⟩, store0) :=
  storage_error_translated sosBody1 profileBodyEmptyDis store0 sosReq1
    profileReqEmptyDis longErrMsg rfl rfl

/-- C4: a payload that fails schema validation (missing mandatory field, or
a value outside an enumerated field's literal set) is rejected with a
client-facing 422 before the handler body runs, so the store is unchanged
no matter what the storage layer would have done. -/
theorem validation_rejected_before_storage (bodyS bodyP : Value) (s : Store)
    (eS eP : String) (fail : Option String)
    (hs : SOSRequest.validate bodyS = Except.error eS)
    (hp : ProfileCreateRequest.validate bodyP = Except.error eP) :
    post_sos bodyS s fail = (Except.error ⟨422, eS⟩, s) ∧
    post_profile bodyP s fail = (Except.error ⟨422, eP⟩, s) := by
  constructor
  · simp [post_sos, hs]
  · simp [post_profile, hp]

/-- C4 witness: an out-of-enum emergency_type and a profile missing its
required disability_type are both rejected with the store untouched, even
though the storage layer stood ready to fail. -/
theorem validation_rejected_before_storage_witness :
    post_sos sosBodyBad store0 (some "boom") =
      (Except.error ⟨422, "emergency_type: Input should be one of the permitted literals"⟩, store0) ∧
    post_profile profileBodyBad store0 (some "boom") =
      (Except.error ⟨422, "disability_type: Field required"⟩, store0) :=
  validation_rejected_before_storage sosBodyBad profileBodyBad store0
    "emergency_type: Input should be one of the permitted literals"
    "disability_type: Field required" (some "boom") rfl rfl

/-- C5: for every integer limit N ≥ 0 and every store, `list_profiles`
returns at most N items, and every returned item has the internal "_id"
removed and its value exposed under the public field "id" as a string. -/
theorem list_profiles_limit_and_id (N : Int) (s : Store) (hN : 0 ≤ N)
    (items : List Doc) (h : list_profiles N s none = Except.ok items) :
    (items.length : Int) ≤ N ∧
    ∀ d ∈ items, List.lookup "_id" d = none ∧
      ∃ i, List.lookup "id" d = some (Value.str i) := by
  have hitems : (get_documents "poduser" [] N s).map sanitizeDoc = items := by
    simpa [list_profiles] using h
  subst hitems
  constructor
  · have hlen : ((get_documents "poduser" [] N s).map sanitizeDoc).length ≤ N.toNat := by
      simp [get_documents, List.length_take]
    calc (((get_documents "poduser" [] N s).map sanitizeDoc).length : Int)
        ≤ (N.toNat : Int) := by exact_mod_cast hlen
      _ = N := Int.toNat_of_nonneg hN
  · intro d hd
    obtain ⟨d₀, hd₀, rfl⟩ := List.mem_map.mp hd
    have hd₁ : d₀ ∈ ((s.collections "poduser").filter
        fun p => matchesFilter [] p.2).map
        fun p => (("_id", Value.str p.1) :: p.2 : Doc) :=
      List.take_subset _ _ hd₀
    obtain ⟨p, hp, rfl⟩ := List.mem_map.mp hd₁
    exact ⟨(sanitizeDoc_lookup p.1 p.2).2, p.1, (sanitizeDoc_lookup p.1 p.2).1⟩

/-- C5 witness: the property at limit 10 on a store holding one profile. -/
theorem list_profiles_limit_and_id_witness :
    (([sanitizedProfileDoc].length : Int) ≤ 10) ∧
    ∀ d ∈ [sanitizedProfileDoc], List.lookup "_id" d = none ∧
      ∃ i, List.lookup "id" d = some (Value.str i) :=
  list_profiles_limit_and_id 10 storeWithProfile (by decide)
    [sanitizedProfileDoc] rfl

/-- C6: `get_translations` normalizes its argument to "ar" exactly when the
argument lowercased starts with "ar" and to "en" otherwise; in particular
`get_translations "AR-sa"` equals `get_translations "ar"`, and
`get_translations "xx"` is the English table. -/
theorem get_translations_normalizes :
    (∀ lang : String,
      get_translations lang =
        if pyStartsWith (pyLower lang) "ar" = true then get_translations "ar"
        else get_translations "en") ∧
    get_translations "AR-sa" = get_translations "ar" ∧
    get_translations "xx" = (List.lookup "en" TRANSLATIONS).getD [] := by
  refine ⟨?_, rfl, rfl⟩
  intro lang
  have har : get_translations "ar" = (List.lookup "ar" TRANSLATIONS).getD [] := rfl
  have hen : get_translations "en" = (List.lookup "en" TRANSLATIONS).getD [] := rfl
  by_cases hb : pyStartsWith (pyLower lang) "ar" = true
  · rw [if_pos hb, har]
    simp [get_translations, hb]
  · rw [if_neg hb, hen]
    simp only [Bool.not_eq_true] at hb
    simp [get_translations, hb]

/-- C7: the GET /test endpoint is a total function of the import outcome
and the environment; every failure mode — import failure, uninitialized db,
collection-listing failure — is reported as a string in the `database`
field of the returned mapping, the environment fields are always filled in,
and at most 10 collection names are reported. -/
theorem test_database_reports (imp : DbImport) (env : OsEnv) :
    (test_database imp env).backend = "✅ Running" ∧
    (test_database imp env).database_url.isSome = true ∧
    (test_database imp env).database_name.isSome = true ∧
    (test_database imp env).collections.length ≤ 10 ∧
    (test_database imp env).database =
      (match imp with
       | .importErr => "❌ Database module not found (run enable-database first)"
       | .otherErr e => "❌ Error: " ++ pySlice 50 e
       | .found none => "⚠️  Available but not initialized"
       | .found (some db) =>
           match db.listCollectionNames with
           | .ok _ => "✅ Connected & Working"
           | .error e => "⚠️  Connected but Error: " ++ pySlice 50 e) := by
  have h10 : ∀ cols : List String, (cols.take 10).length ≤ 10 := by
    intro cols
    rw [List.length_take]
    exact min_le_left _ _
  rcases imp with _ | e | odb
  · exact ⟨rfl, rfl, rfl, Nat.zero_le _, rfl⟩
  · exact ⟨rfl, rfl, rfl, Nat.zero_le _, rfl⟩
  · rcases odb with _ | db
    · exact ⟨rfl, rfl, rfl, Nat.zero_le _, rfl⟩
    · rcases hc : db.listCollectionNames with cols | e
      · refine ⟨?_, ?_, ?_, ?_, ?_⟩ <;> simp [test_database, hc, h10]
      · refine ⟨?_, ?_, ?_, ?_, ?_⟩ <;> simp [test_database, hc]

/-- C8: the hardcoded "en" and "ar" tables carry exactly the same key list,
and the table served by `get_translations` for any input has exactly those
keys, so no lookup through it can miss a key present in the other language. -/
theorem translation_tables_complete :
    keysOf ((List.lookup "en" TRANSLATIONS).getD []) =
      keysOf ((List.lookup "ar" TRANSLATIONS).getD []) ∧
    ∀ lang : String, keysOf (get_translations lang) =
      keysOf ((List.lookup "en" TRANSLATIONS).getD []) := by
  refine ⟨rfl, ?_⟩
  intro lang
  by_cases hb : pyStartsWith (pyLower lang) "ar" = true
  · have : get_translations lang = (List.lookup "ar" TRANSLATIONS).getD [] := by
      simp [get_translations, hb]
    rw [this]
    rfl
  · simp only [Bool.not_eq_true] at hb
    have : get_translations lang = (List.lookup "en" TRANSLATIONS).getD [] := by
      simp [get_translations, hb]
    rw [this]

/-- C9: `get_services` takes no input and reads no mutable state — its only
argument is `Unit` — and every call returns the same fixed structure: one
"categories" key holding the six fixed categories. -/
theorem get_services_deterministic :
    (∀ u v : Unit, get_services u = get_services v) ∧
    get_services () = Value.obj [("categories", Value.arr
      [svcCategory "healthcare" "Healthcare"
        [svcItem "Telemedicine" "Virtual consults with accessibility options",
         svcItem "Rehabilitation" "Physio, speech, occupational therapy"],
       svcCategory "benefits" "Government Benefits"
        [svcItem "POD ID Verification" "Submit documents to unlock programs",
         svcItem "Subsidies" "Travel, devices, healthcare subsidies"],
       svcCategory "community" "Community"
        [svcItem "Local Groups" "Meetups and support circles",
         svcItem "Volunteers" "Request helpers and guides"],
       svcCategory "devices" "Assistive Devices"
        [svcItem "Marketplace" "Screen readers, hearing aids, mobility aids"],
       svcCategory "education" "Education & Employment"
        [svcItem "Accessible Courses" "Learning paths with captions and TTS",
         svcItem "Inclusive Jobs" "Listings with accommodations"],
       svcCategory "global" "Global Requests"
        [svcItem "Cross-border Support" "Travel and relocation assistance"]])] :=
  ⟨fun _ _ => rfl, rfl⟩

/-- C10: the document persisted for an SOS has exactly the key set
user_id, location, notes, emergency_type, status; `SOSRequest` declares no
status field, so a client-supplied status (or any other unknown key) is
dropped during validation rather than rejected — `sosBody1` carries both a
`status: "closed"` and an unknown key and still validates — and the server
then sets status to "open". -/
theorem sos_doc_exact_fields :
    (∀ req : SOSRequest, keysOf (sosStoredDoc req) =
      ["user_id", "location", "notes", "emergency_type", "status"]) ∧
    SOSRequest.validate sosBody1 = Except.ok sosReq1 ∧
    List.lookup "status" (sosStoredDoc sosReq1) = some (Value.str "open") :=
  ⟨fun _ => rfl, rfl, rfl⟩

/-- C5 counterexample: at the negative limit N = -1 the model returns zero
items from a store that holds one profile, and zero items is not "at most
N items" — (0 : Int) ≤ -1 is false — so the claim quantified over every
integer N fails. -/
theorem list_profiles_negative_limit_cex :
    list_profiles (-1) storeWithProfile none = Except.ok [] ∧
    ¬ ((([] : List Doc).length : Int) ≤ -1) :=
  ⟨rfl, by decide⟩
